import Mathlib

/-!
Verification of the django-resource core against its natural-language design.

The development shallowly embeds the Python modules under `src/django_resource/`
(`expression.py`, `executor.py`, `query.py`, `types.py`) over a JSON-shaped
value type `JVal`.  Python exceptions become an `Except ExecError` result,
Python truthiness becomes `truthy`, and Python dicts become ordered
association lists.  Collaborators that the repository imports but that are not
part of the source tree (`utils.py`, `conf.py`, `boolean.py`, the stdlib
`json`/`base64` modules, and the undefined `Query.get_state`) are modelled
from the design document; each such definition carries a doc comment starting
with "Modelled from the spec".
-/

namespace DR

/-- JSON-shaped Python values: the universe manipulated by the query state,
the expression evaluator and the serializer.  `pyfloat` keeps the literal a
float was parsed from (no claim computes with floats); `pybytes` is a Python
`bytes` value holding ASCII characters (the base64 cursors). -/
inductive JVal where
  | null
  | bool (b : Bool)
  | int (i : Int)
  | pyfloat (lit : String)
  | str (s : String)
  | list (xs : List JVal)
  | obj (kvs : List (String × JVal))
  | pybytes (cs : List Char)
deriving Repr

/-- Python truthiness of a `JVal` (`bool(value)`): `None`, `False`, `0`, `""`,
`[]` and a dict with no keys are falsy.  A float literal is treated as truthy
(no claim exercises float truthiness). -/
def truthy : JVal → Bool
  | .null => false
  | .bool b => b
  | .int i => if i = 0 then false else true
  | .pyfloat _ => true
  | .str s => if s = "" then false else true
  | .list [] => false
  | .list (_ :: _) => true
  | .obj [] => false
  | .obj (_ :: _) => true
  | .pybytes [] => false
  | .pybytes (_ :: _) => true

/-- Dict lookup (`d[k]` / `d.get(k)`): first binding of the key. -/
def jlookup (k : String) : List (String × JVal) → Option JVal
  | [] => none
  | (k', v) :: rest => if k' = k then some v else jlookup k rest

/-- Dict assignment `d[k] = v`: replace the first binding or append. -/
def jset : List (String × JVal) → String → JVal → List (String × JVal)
  | [], k, v => [(k, v)]
  | (k', v') :: rest, k, v =>
      if k' = k then (k, v) :: rest else (k', v') :: jset rest k v

/-! Python string operations, modelled over the character list of a `String`
(Python strings are code-point sequences, as `String.data` is). -/

/-- Python's `s.startswith(".")`. -/
def startsWithDot (s : String) : Bool :=
  match s.data with
  | [] => false
  | c :: _ => c = '.'

/-- Python's `s[1:]`. -/
def dropFirst (s : String) : String := String.mk (s.data.drop 1)

/-- Python's `s.split(c)` (single-character separator). -/
def splitOnChar (c : Char) : List Char → List (List Char)
  | [] => [[]]
  | a :: rest =>
      let r := splitOnChar c rest
      if a = c then [] :: r
      else
        match r with
        | h :: t => (a :: h) :: t
        | [] => [[a]]

/-- Python's `s.split(c)` returning strings. -/
def pySplit (s : String) (c : Char) : List String := (splitOnChar c s.data).map String.mk

/-- Python's `c in s` for a single character. -/
def containsChar (s : String) (c : Char) : Bool := s.data.any (fun a => a = c)

/-- The numeric value of a non-empty all-digit run. -/
def digitRunToNat (ds : List Char) : Option Nat :=
  if ds = [] then none
  else if ds.all Char.isDigit then some (ds.foldl (fun a c => a * 10 + (c.toNat - 48)) 0)
  else none

/-- Python's `int(str)`: strip whitespace, optional sign, digits.  (A close
model; no claim exercises the fringes of CPython's grammar, e.g. digit
underscores.) -/
def pyIntParse (s : String) : Option Int :=
  let t := ((s.data.dropWhile Char.isWhitespace).reverse.dropWhile Char.isWhitespace).reverse
  match t with
  | '-' :: ds => (digitRunToNat ds).map (fun n => -(n : Int))
  | '+' :: ds => (digitRunToNat ds).map (fun n => (n : Int))
  | ds => (digitRunToNat ds).map (fun n => (n : Int))

/-- Errors raised (or produced) by the embedded code.  `fuel` marks
exhaustion of the step budget of a fuelled recursion, not a Python error. -/
inductive ExecError where
  | fuel
  | keyError (msg : String)
  | typeError (msg : String)
  | valueError (msg : String)
  | attrError (msg : String)
  | indexError (msg : String)
  | unboundLocal (msg : String)
  | serialization (msg : String)
  | queryValidation (msg : String)
  | notModelled (msg : String)
deriving Repr, DecidableEq

/-- Python's `value.get(key, default)` for values that must be dicts: a
non-dict receiver raises `AttributeError` as in Python. -/
def pyGet (v : JVal) (k : String) (d : JVal) : Except ExecError JVal :=
  match v with
  | .obj kvs => .ok ((jlookup k kvs).getD d)
  | _ => .error (.attrError "get")

/-- Python's `int(value)` for the values the executor feeds it. -/
def pyInt : JVal → Except ExecError Int
  | .int i => .ok i
  | .bool b => .ok (if b then 1 else 0)
  | .str s =>
      match pyIntParse s with
      | some i => .ok i
      | none => .error (.valueError "invalid literal for int")
  | _ => .error (.typeError "int() argument")

/-! ## Cursors: `json.dumps` / `json.loads` and base64 (executor.py 34-40)

`json` and `base64` are stdlib collaborators.  They are modelled at the byte
level for exactly the values this module passes them: `encode_cursor` feeds
`json.dumps` a single-key mapping `\x7b"offset": n\x7d` with `n` a
non-negative integer, and `decode_cursor` parses that shape back. -/

/-- The decimal digit bytes of `n` (ASCII, most significant first), as
`repr(n)` renders a non-negative int inside `json.dumps`. -/
def digitBytes (n : Nat) : List Nat :=
  if n = 0 then [48] else ((Nat.digits 10 n).reverse).map (· + 48)

/-- ASCII bytes of the prefix `\x7b"offset": ` that `json.dumps` emits for the
cursor object (11 bytes: brace, quote, o f f s e t, quote, colon, space). -/
def offsetFrame : List Nat := [123, 34, 111, 102, 102, 115, 101, 116, 34, 58, 32]

/-- UTF-8 bytes of `json.dumps` on the cursor object with offset `n`:
the frame, the decimal digits, and a closing brace. -/
def dumpBytes (n : Nat) : List Nat := offsetFrame ++ digitBytes n ++ [125]

/-- Whether a byte is an ASCII decimal digit. -/
def isDigitByte (b : Nat) : Bool := 48 ≤ b && b ≤ 57

/-- Restricted `json.loads`: recognises exactly the byte strings
`json.dumps` produces for `\x7b"offset": n\x7d` and recovers `n`. -/
def parseOffsetBytes (bs : List Nat) : Option Nat :=
  if bs.take 11 = offsetFrame then
    let rest := bs.drop 11
    let ds := rest.takeWhile isDigitByte
    let tl := rest.dropWhile isDigitByte
    if ds = [] then none
    else if tl = [125] then some (ds.foldl (fun a b => a * 10 + (b - 48)) 0)
    else none
  else none

/-- The standard base64 alphabet. -/
def b64alpha : List Char :=
  "ABCDEFGHIJKLMNOPQRSTUVWXYZabcdefghijklmnopqrstuvwxyz0123456789+/".data

/-- Character of a 6-bit value. -/
def b64chr (v : Nat) : Char := b64alpha.getD v 'A'

/-- 6-bit value of an alphabet character (`none` for `=` and strays). -/
def b64val (c : Char) : Option Nat := b64alpha.findIdx? (fun a => a = c)

/-- `base64.b64encode` over a byte list: 3-byte blocks become 4 characters,
with `=` padding for a 1- or 2-byte tail. -/
def b64encode : List Nat → List Char
  | [] => []
  | [a] => [b64chr (a / 4), b64chr (a % 4 * 16), '=', '=']
  | [a, b] => [b64chr (a / 4), b64chr (a % 4 * 16 + b / 16), b64chr (b % 16 * 4), '=']
  | a :: b :: c :: rest =>
      b64chr (a / 4) :: b64chr (a % 4 * 16 + b / 16) ::
      b64chr (b % 16 * 4 + c / 64) :: b64chr (c % 64) :: b64encode rest

/-- `base64.b64decode` over a character list; `none` stands for the
`binascii` error on malformed input. -/
def b64decode : List Char → Option (List Nat)
  | [] => some []
  | c1 :: c2 :: c3 :: c4 :: rest => do
      let v1 ← b64val c1
      let v2 ← b64val c2
      if c3 = '=' then
        if c4 = '=' ∧ rest = [] then some [v1 * 4 + v2 / 16] else none
      else do
        let v3 ← b64val c3
        if c4 = '=' then
          if rest = [] then some [v1 * 4 + v2 / 16, v2 % 16 * 16 + v3 / 4] else none
        else do
          let v4 ← b64val c4
          let tl ← b64decode rest
          some ((v1 * 4 + v2 / 16) :: (v2 % 16 * 16 + v3 / 4) :: (v3 % 4 * 64 + v4) :: tl)
  | _ => none

theorem b64val_b64chr : ∀ v : Nat, v < 64 → b64val (b64chr v) = some v := by decide

theorem b64chr_ne_eq : ∀ v : Nat, v < 64 → b64chr v ≠ '=' := by decide

theorem b64_roundtrip : ∀ bs : List Nat, (∀ b ∈ bs, b < 256) →
    b64decode (b64encode bs) = some bs := by
  intro bs
  induction bs using b64encode.induct with
  | case1 => intro _; simp [b64encode, b64decode]
  | case2 a =>
      intro h
      have ha : a < 256 := h a (by simp)
      have l1 := b64val_b64chr (a / 4) (by omega)
      have l2 := b64val_b64chr (a % 4 * 16) (by omega)
      have e1 : a / 4 * 4 + a % 4 * 16 / 16 = a := by omega
      simp [b64encode, b64decode, l1, l2]
      omega
  | case3 a b =>
      intro h
      have ha : a < 256 := h a (by simp)
      have hb : b < 256 := h b (by simp)
      have l1 := b64val_b64chr (a / 4) (by omega)
      have l2 := b64val_b64chr (a % 4 * 16 + b / 16) (by omega)
      have l3 := b64val_b64chr (b % 16 * 4) (by omega)
      have n3 := b64chr_ne_eq (b % 16 * 4) (by omega)
      have e1 : a / 4 * 4 + (a % 4 * 16 + b / 16) / 16 = a := by omega
      have e2 : (a % 4 * 16 + b / 16) % 16 * 16 + b % 16 * 4 / 4 = b := by omega
      simp [b64encode, b64decode, l1, l2, l3, n3]
      omega
  | case4 a b c rest ih =>
      intro h
      have ha : a < 256 := h a (by simp)
      have hb : b < 256 := h b (by simp)
      have hc : c < 256 := h c (by simp)
      have hrest : ∀ x ∈ rest, x < 256 := fun x hx => h x (by simp [hx])
      have l1 := b64val_b64chr (a / 4) (by omega)
      have l2 := b64val_b64chr (a % 4 * 16 + b / 16) (by omega)
      have l3 := b64val_b64chr (b % 16 * 4 + c / 64) (by omega)
      have l4 := b64val_b64chr (c % 64) (by omega)
      have n3 := b64chr_ne_eq (b % 16 * 4 + c / 64) (by omega)
      have n4 := b64chr_ne_eq (c % 64) (by omega)
      have e1 : a / 4 * 4 + (a % 4 * 16 + b / 16) / 16 = a := by omega
      have e2 : (a % 4 * 16 + b / 16) % 16 * 16 + (b % 16 * 4 + c / 64) / 4 = b := by omega
      have e3 : (b % 16 * 4 + c / 64) % 4 * 64 + c % 64 = c := by omega
      simp [b64encode, b64decode, l1, l2, l3, l4, n3, n4, ih hrest]
      omega

theorem takeWhile_all_append (p : Nat → Bool) :
    ∀ (l1 l2 : List Nat), (∀ a ∈ l1, p a = true) →
      (l1 ++ l2).takeWhile p = l1 ++ l2.takeWhile p ∧
      (l1 ++ l2).dropWhile p = l2.dropWhile p := by
  intro l1
  induction l1 with
  | nil => intro l2 _; simp
  | cons a l1 ih =>
      intro l2 h
      have ha : p a = true := h a (by simp)
      have := ih l2 (fun x hx => h x (by simp [hx]))
      simp [List.takeWhile_cons, List.dropWhile_cons, ha, this.1, this.2]

theorem digitBytes_digits : ∀ b ∈ digitBytes n, isDigitByte b = true := by
  intro b hb
  unfold digitBytes at hb
  by_cases h0 : n = 0
  · rw [if_pos h0] at hb
    simp only [List.mem_singleton] at hb
    subst hb
    decide
  · rw [if_neg h0] at hb
    simp only [List.mem_map, List.mem_reverse] at hb
    obtain ⟨d, hd, rfl⟩ := hb
    have : d < 10 := Nat.digits_lt_base (by norm_num) hd
    unfold isDigitByte
    simp only [Bool.and_eq_true, decide_eq_true_eq]
    omega

theorem digitBytes_ne_nil : digitBytes n ≠ [] := by
  unfold digitBytes
  by_cases h0 : n = 0
  · simp [h0]
  · rw [if_neg h0]
    have hd : Nat.digits 10 n ≠ [] := Nat.digits_ne_nil_iff_ne_zero.mpr h0
    intro hc
    rw [List.map_eq_nil_iff, List.reverse_eq_nil_iff] at hc
    exact hd hc

theorem foldl_reverse_digits (L : List Nat) :
    L.reverse.foldl (fun a d => a * 10 + d) 0 = Nat.ofDigits 10 L := by
  induction L with
  | nil => simp [Nat.ofDigits]
  | cons d L ih =>
      simp only [List.reverse_cons, List.foldl_append, List.foldl_cons, List.foldl_nil, ih,
        Nat.ofDigits_cons]
      omega

theorem digitBytes_foldl (n : Nat) :
    (digitBytes n).foldl (fun a b => a * 10 + (b - 48)) 0 = n := by
  unfold digitBytes
  by_cases h0 : n = 0
  · simp [h0]
  · simp only [h0, if_false]
    have hmap : ((Nat.digits 10 n).reverse.map (· + 48)).foldl
        (fun a b => a * 10 + (b - 48)) 0
        = (Nat.digits 10 n).reverse.foldl (fun a d => a * 10 + d) 0 := by
      rw [List.foldl_map]
      simp only [Nat.add_sub_cancel]
    rw [hmap, foldl_reverse_digits, Nat.ofDigits_digits]

theorem parseOffsetBytes_dumpBytes (n : Nat) :
    parseOffsetBytes (dumpBytes n) = some n := by
  have hframe : offsetFrame.length = 11 := by rfl
  have htake : (dumpBytes n).take 11 = offsetFrame := by
    unfold dumpBytes
    rw [List.append_assoc, ← hframe, List.take_left]
  have hdrop : (dumpBytes n).drop 11 = digitBytes n ++ [125] := by
    unfold dumpBytes
    rw [List.append_assoc, ← hframe, List.drop_left]
  have hsplit := takeWhile_all_append isDigitByte (digitBytes n) [125] digitBytes_digits
  have h125 : List.takeWhile isDigitByte [125] = ([] : List Nat) := by decide
  have h125' : List.dropWhile isDigitByte [125] = ([125] : List Nat) := by decide
  unfold parseOffsetBytes
  rw [htake, hdrop, if_pos rfl]
  simp only [hsplit.1, hsplit.2, h125, h125', List.append_nil]
  simp [digitBytes_ne_nil, digitBytes_foldl]

theorem dumpBytes_lt_256 (n : Nat) : ∀ b ∈ dumpBytes n, b < 256 := by
  intro b hb
  unfold dumpBytes offsetFrame at hb
  rcases List.mem_append.mp hb with h | h
  · rcases List.mem_append.mp h with h' | h'
    · simp only [List.mem_cons, List.not_mem_nil, or_false] at h'
      omega
    · have := digitBytes_digits b h'
      unfold isDigitByte at this
      simp only [Bool.and_eq_true, decide_eq_true_eq] at this
      omega
  · simp only [List.mem_singleton] at h
    omega

/-- Executor.decode_cursor (executor.py 34-36): UTF-8-decode the bytes,
base64-decode, and `json.loads` the result (modelled for the cursor shape). -/
def decode_cursor (v : JVal) : Except ExecError JVal :=
  match v with
  | .pybytes cs =>
      match b64decode cs with
      | none => .error (.valueError "invalid base64")
      | some bs =>
          match parseOffsetBytes bs with
          | some n => .ok (.obj [("offset", .int (n : Int))])
          | none => .error (.valueError "invalid json")
  | _ => .error (.attrError "decode")

/-- Executor.encode_cursor (executor.py 38-40): `json.dumps` the cursor and
base64-encode the UTF-8 bytes.  `json.dumps` is modelled for the one shape
this module produces, a single-key mapping with a non-negative offset. -/
def encode_cursor (c : JVal) : Except ExecError JVal :=
  match c with
  | .obj [("offset", .int i)] =>
      if 0 ≤ i then .ok (.pybytes (b64encode (dumpBytes i.toNat)))
      else .error (.notModelled "json.dumps of a negative offset")
  | _ => .error (.notModelled "json.dumps beyond cursor objects")

/-- A cursor value as the executor produces it: base64 of the dumped offset. -/
def cursorBytes (n : Nat) : JVal := .pybytes (b64encode (dumpBytes n))

theorem decode_cursorBytes (n : Nat) :
    decode_cursor (cursorBytes n) = .ok (.obj [("offset", .int (n : Int))]) := by
  simp only [cursorBytes, decode_cursor,
    b64_roundtrip (dumpBytes n) (dumpBytes_lt_256 n), parseOffsetBytes_dumpBytes]

/-! ## Expression evaluator (expression.py) -/

/-- Modelled from the spec: `utils.get` (utils.py is not under src/) — "a
string interpreted as a dotted lookup path into a context"; each dotted
segment is looked up in a mapping, a missing segment yielding null. -/
def jgetPath (path : String) (ctx : JVal) : JVal :=
  (pySplit path '.').foldl
    (fun acc part =>
      match acc with
      | .obj kvs => (jlookup part kvs).getD .null
      | _ => .null)
    ctx

/-- Modelled from the spec: `utils.resolve` (utils.py is not under src/)
performs template substitution over a "\x7b\x7b ... \x7d\x7d"-style
placeholder grammar; no claim exercises templates, so it is the identity on
template-free values. -/
def resolveUtil (e : JVal) (_ctx : JVal) : JVal := e

/-- get_expression (expression.py 13-18): falsy expressions pass through,
otherwise the expression is resolved and used as a dotted path into the
context. -/
def get_expression (e ctx : JVal) : Except ExecError JVal :=
  if truthy e = false then .ok e
  else
    match resolveUtil e ctx with
    | .str s => .ok (jgetPath s ctx)
    | _ => .error (.typeError "get: non-string paths are outside the spec model")

/-- value_expression (expression.py 63-64): literal pass-through. -/
def value_expression (e _ctx : JVal) : Except ExecError JVal := .ok e

/-- The element traversal of `str.join`: every joined element must be a
string (`TypeError` otherwise). -/
def strList : List JVal → Except ExecError (List String)
  | [] => .ok []
  | .str t :: vs => (strList vs).map (fun ts => t :: ts)
  | _ :: _ => .error (.typeError "sequence item: expected str instance")

/-- Python's `separator.join(values)`: the separator must be a string
(`AttributeError` otherwise, as on any non-string receiver) and every
element must be a string. -/
def pyStrJoin (sep : JVal) (vs : List JVal) : Except ExecError JVal :=
  match sep with
  | .str s => (strList vs).map (fun ts => .str (String.intercalate s ts))
  | _ => .error (.attrError "join")

/-- join_expression (expression.py 39-60).  The dict shape resolves each
element of `values` as an expression before joining; the bare-list shape
falls through to the final join without resolving its elements; the bare
string is resolved and must yield a list.  A truthy argument of any other
shape reaches the final `separator.join(values)` with both locals unbound
(`UnboundLocalError` in Python). -/
def join_expression (e ctx : JVal) : Except ExecError JVal :=
  if truthy e = false then .ok e
  else
    match e with
    | .obj kvs =>
        let sep := (jlookup "separator" kvs).getD (.str " ")
        match jlookup "values" kvs with
        | some (.list vs) => do
            let rs ← vs.mapM (fun v => get_expression v ctx)
            pyStrJoin sep rs
        | some .null | none => .error (.typeError "NoneType is not iterable")
        | some _ => .error (.typeError "iteration over a non-list is outside the spec model")
    | .list vs => pyStrJoin (.str " ") vs
    | .str s => do
        let values ← get_expression (.str s) ctx
        match values with
        | .list vs => pyStrJoin (.str " ") vs
        | _ => .error (.valueError "join expecting value to be list")
    | _ => .error (.unboundLocal "separator")

/-- The brace character, written by code point to keep it out of literals. -/
def hbrace : Char := Char.ofNat 123

theorem dropWhile_length_le (p : Char → Bool) (l : List Char) :
    (l.dropWhile p).length ≤ l.length := by
  induction l with
  | nil => simp
  | cons a l ih =>
      rw [List.dropWhile_cons]
      by_cases hp : p a = true
      · simp only [hp, if_true]
        simp
        omega
      · simp [hp]

/-- The `re.sub` of format_expression (expression.py 35): rewrite every
occurrence of two braces, optional whitespace and a dot into two braces,
a space and `self.`. -/
def formatRewriteGo (cs : List Char) : List Char :=
  match cs with
  | [] => []
  | [a] => [a]
  | a :: b :: rest2 =>
      if a = hbrace ∧ b = hbrace then
        match hws : rest2.dropWhile (fun c => c.isWhitespace) with
        | '.' :: tail =>
            hbrace :: hbrace :: ' ' :: 's' :: 'e' :: 'l' :: 'f' :: '.' ::
              formatRewriteGo tail
        | _ => a :: formatRewriteGo (b :: rest2)
      else a :: formatRewriteGo (b :: rest2)
termination_by cs.length
decreasing_by
  · have h1 : (rest2.dropWhile (fun c => c.isWhitespace)).length ≤ rest2.length :=
      dropWhile_length_le _ rest2
    rw [hws] at h1
    simp at h1 ⊢
    omega
  · simp
  · simp

mutual

/-- execute (expression.py 75-96), with a fuel bound on the mutual recursion
through format_expression.  A falsy expression passes through unresolved; a
dict with one key dispatches on the key after stripping one leading dot —
note the source then indexes the dict with the STRIPPED key
(`args = expression[method]`), a `KeyError` whenever the key was actually
dotted; a dict whose single key is no method passes through unresolved; a
string is a `get`; any other truthy value falls off the function (Python
returns `None`, and every caller immediately unpacks a pair). -/
def execute : Nat → JVal → JVal → Except ExecError (JVal × Bool)
  | 0, _, _ => .error .fuel
  | fuel + 1, e, ctx =>
      if truthy e = false then .ok (e, false)
      else
        match e with
        | .obj kvs =>
            match kvs with
            | [(k, _)] =>
                let method := if startsWithDot k then dropFirst k else k
                match jlookup method kvs with
                | none => .error (.keyError method)
                | some args =>
                    if method = "get" then
                      (get_expression args ctx).map (fun v => (v, true))
                    else if method = "format" then
                      (format_expression fuel args ctx).map (fun v => (v, true))
                    else if method = "value" then
                      (value_expression args ctx).map (fun v => (v, true))
                    else if method = "join" then
                      (join_expression args ctx).map (fun v => (v, true))
                    else .ok (e, false)
            | _ => .ok (e, false)
        | .str s => (get_expression (.str s) ctx).map (fun v => (v, true))
        | _ => .error (.typeError "execute returned None and the caller unpacked it")

/-- resolve_expression (expression.py 5-10): while the value is a dict,
execute it; stop when a step reports unresolved or leaves the dict world.
The fuel bounds the number of loop iterations (the source has no such
bound). -/
def resolve_expression : Nat → JVal → JVal → Except ExecError JVal
  | 0, _, _ => .error .fuel
  | fuel + 1, e, ctx =>
      match e with
      | .obj kvs => do
          let p ← execute fuel (.obj kvs) ctx
          if p.2 then resolve_expression fuel p.1 ctx else .ok p.1
      | _ => .ok e

/-- format_expression (expression.py 21-36): falsy passes through; the
argument is first fully resolved; a dict formats keys and values
recursively; a LIST hits the recursive call that forgets the context
argument (`format_expression(v)`, a `TypeError` in Python); otherwise the
placeholder rewrite runs and the template is resolved against a context
wrapped under `self`. -/
def format_expression : Nat → JVal → JVal → Except ExecError JVal
  | 0, _, _ => .error .fuel
  | fuel + 1, e, ctx =>
      if truthy e = false then .ok e
      else do
        let r ← resolve_expression fuel e ctx
        match r with
        | .obj kvs => do
            let kvs2 ← kvs.mapM (fun kv => do
                let k2 ← format_expression fuel (.str kv.1) ctx
                let v2 ← format_expression fuel kv.2 ctx
                match k2 with
                | .str ks => pure (ks, v2)
                | _ => Except.error (ExecError.typeError "unhashable formatted key"))
            pure (.obj kvs2)
        | .list _ =>
            .error (.typeError "format_expression() missing 1 required positional argument")
        | .str s =>
            .ok (resolveUtil (.str (String.mk (formatRewriteGo s.data)))
                  (.obj [("self", ctx)]))
        | _ => .error (.typeError "expected string or bytes-like object")

end

/-! ## Type descriptors (types.py 49-63) -/

/-- Python's three-valued booleans as returned by is_link: True, False, None. -/
inductive PyTri where
  | t
  | f
  | n
deriving Repr, DecidableEq

theorem jlookup_sizeOf_lt :
    ∀ (kvs : List (String × JVal)) (k : String) (v : JVal),
      jlookup k kvs = some v → sizeOf v < sizeOf kvs := by
  intro kvs
  induction kvs with
  | nil => intro k v h; simp [jlookup] at h
  | cons kv rest ih =>
      intro k v h
      rw [jlookup] at h
      by_cases he : kv.1 = k
      · rw [if_pos he] at h
        cases h
        cases kv with
        | mk k' v' => simp; omega
      · rw [if_neg he] at h
        have := ih k v h
        cases kv with
        | mk k' v' => simp; omega

/-- is_link (types.py 49-55): a string is a link iff it contains `@`; a dict
is judged by its truthy `of` member (with `None` — neither True nor False —
when `of` is missing or falsy); anything else is not a link. -/
def is_link (T : JVal) : PyTri :=
  match T with
  | .str s => if containsChar s '@' then .t else .f
  | .obj kvs =>
      match h : jlookup "of" kvs with
      | some v => if truthy v then is_link v else .n
      | none => .n
  | _ => .f
termination_by sizeOf T
decreasing_by
  have := jlookup_sizeOf_lt kvs "of" v h
  simp
  omega

/-- The characters after the first `@` of `s`
(`"".join(T[T.index("@") + 1 :])`). -/
def afterAt (s : String) : String := String.intercalate "@" ((pySplit s '@').tail)

/-- get_link (types.py 58-63).  It RETURNS A PAIR: `(True, name)` when
`is_link` is truthy, `(None, None)` otherwise.  When `is_link` is truthy but
the descriptor is not a string, `T.index` does not exist (`AttributeError`
in Python). -/
def get_link (T : JVal) : Except ExecError (Option Bool × Option String) :=
  if is_link T = .t then
    match T with
    | .str s => .ok (some true, some (afterAt s))
    | _ => .error (.attrError "index")
  else .ok (none, none)

/-- Python truthiness of the pair get_link returns: a 2-tuple is always
truthy, whatever it holds. -/
def pairTruthy (_p : Option Bool × Option String) : Bool := true

/-! ## Resources and field descriptors (external schema, consumed) -/

/-- FieldDescriptor as consumed by the executor: name, declared type
descriptor, source (string path or expression mapping), `can` permission
mapping, and the lazy flag. -/
structure FieldD where
  name : String
  type : JVal
  source : JVal
  can : Option (List (String × JVal))
  lazy : Bool
deriving Repr

/-- ResourceDescriptor: identity, field set, and the optional space holding
a by-name registry of sibling resources. -/
inductive ResourceT where
  | mk (rid : String) (flds : List FieldD) (spc : Option (List (String × ResourceT)))

/-- Resource identity (`resource.id`). -/
def ResourceT.rid : ResourceT → String
  | .mk i _ _ => i

/-- Resource field list (`resource.fields`). -/
def ResourceT.flds : ResourceT → List FieldD
  | .mk _ f _ => f

/-- Resource space (`resource.space`), `none` when unset/falsy. -/
def ResourceT.spc : ResourceT → Option (List (String × ResourceT))
  | .mk _ _ s => s

/-- A Python dict key as used on `space.resources_by_name`: either a string
or the `(bool, str)` pair that `get_link` returns. -/
inductive PyKey where
  | strK (s : String)
  | pairK (p : Option Bool × Option String)

/-- Lookup on the by-name registry: its keys are resource names (strings),
so a tuple key never matches any entry. -/
def pyDictGetR (m : List (String × ResourceT)) : PyKey → Option ResourceT
  | .strK s =>
      match m.find? (fun kv => kv.1 = s) with
      | some kv => some kv.2
      | none => none
  | .pairK _ => none

/-- Executor.resolve_resource (executor.py 60-70): fail when the base
resource has no space, else look the name up in the space's registry,
failing when absent. -/
def resolve_resource (base : ResourceT) (name : PyKey) : Except ExecError ResourceT :=
  match base.spc with
  | none => .error (.serialization ("Cannot lookup resource from base resource " ++ base.rid))
  | some byName =>
      match pyDictGetR byName name with
      | some r => .ok r
      | none => .error (.serialization "Resource not found")

/-! ## Field selection (executor.py 74-155) -/

/-- Executor.should_take_field (executor.py 139-155).  `take` is the level's
take dict (`none` when the state has no take).  An entry that is exactly
`False` excludes; a missing (or explicit null) entry falls back to the `*`
default, which never admits a lazy field; any other entry includes. -/
def should_take_field (f : FieldD) (take : Option (List (String × JVal))) : Bool :=
  match take with
  | some t =>
      let defaults := (jlookup "*" t).getD (.bool false)
      let shouldT := (jlookup f.name t).getD .null
      match shouldT with
      | .bool false => false
      | .null => if f.lazy || !truthy defaults then false else true
      | _ => true
  | none => !f.lazy

/-- What Executor.can_take_field returns: either the raw `can` entry (or the
booleans of the early returns), or — when the entry was a dict — the
un-unpacked PAIR that `execute` returns. -/
inductive CanResult where
  | val (v : JVal)
  | pair (v : JVal) (resolved : Bool)
deriving Repr

/-- Python truthiness of a CanResult: a 2-tuple is always truthy. -/
def canResultTruthy : CanResult → Bool
  | .val v => truthy v
  | .pair _ _ => true

/-- Executor.can_take_field (executor.py 123-137).  No `can` mapping: allowed.
Action missing from `can`: denied.  A dict entry is passed to `execute`
against `\x7b"request": request, "query": query.state\x7d` — and the
`(value, was_resolved)` PAIR is returned as-is (the source never unpacks
it). -/
def can_take_field (fuel : Nat) (f : FieldD) (action : String)
    (queryState request : JVal) : Except ExecError CanResult :=
  match f.can with
  | none => .ok (.val (.bool true))
  | some can =>
      match jlookup action can with
      | none => .ok (.val (.bool false))
      | some c =>
          match c with
          | .obj kvs =>
              (execute fuel (.obj kvs)
                  (.obj [("request", request), ("query", queryState)])).map
                (fun p => .pair p.1 p.2)
          | v => .ok (.val v)

/-- The field loop of Executor.select_fields (executor.py 88-104): keep the
fields passing both the take filter and the permission filter, in order. -/
def select_fields_from (fuel : Nat) (fields : List FieldD)
    (take : Option (List (String × JVal))) (action : String)
    (queryState request : JVal) : Except ExecError (List FieldD) :=
  match fields with
  | [] => .ok []
  | f :: fs =>
      if should_take_field f take = false then
        select_fields_from fuel fs take action queryState request
      else do
        let c ← can_take_field fuel f action queryState request
        let rest ← select_fields_from fuel fs take action queryState request
        if canResultTruthy c then .ok (f :: rest) else .ok rest

/-! ## Query state access and pagination (executor.py 42-58) -/

/-- Modelled from the spec: `settings.DEFAULT_PAGE_SIZE` (conf.py is not
under src/); the concrete default is irrelevant to the claims. -/
def DEFAULT_PAGE_SIZE : Int := 100

/-- Modelled from the spec: `Query.get_state(level)` — the executor calls it
but query.py never defines it.  Per the spec a level is a dot-separated
relation path addressing the nested take tree ("nested under a `take` key
path representing level"), so the sub-state of a level is reached by
descending one take node per path segment, yielding null when the path is
not a nested mapping. -/
def getState (state : JVal) : Option String → JVal
  | none => state
  | some lv =>
      (pySplit lv '.').foldl
        (fun st part =>
          match st with
          | .obj kvs =>
              match jlookup "take" kvs with
              | some (.obj tkvs) => (jlookup part tkvs).getD .null
              | _ => .null
          | _ => .null)
        state

/-- Executor.get_next_page (executor.py 42-58): read the level's page
settings, int-coerce the size, decode the prior cursor if any, and encode
`prior_offset + offset` (offset defaulting to the size). -/
def get_next_page (queryState : JVal) (offset : Option Int) (level : Option String) :
    Except ExecError JVal := do
  let state := getState queryState level
  let page ← pyGet state "page" (.obj [])
  let size ← pyInt ((match page with | .obj kvs => (jlookup "size" kvs).getD (.int DEFAULT_PAGE_SIZE) | _ => .int DEFAULT_PAGE_SIZE))
  let afterV ← pyGet page "after" .null
  let prior ← (match afterV with
               | .null => pure (none : Option JVal)
               | v => (decode_cursor v).map some)
  let off := offset.getD size
  let next ← (match prior with
              | none => pure off
              | some p => do
                  let pOff ← pyGet p "offset" (.int 0)
                  match pOff with
                  | .int k => pure (k + off)
                  | _ => .error (.typeError "unsupported operand type for +"))
  encode_cursor (.obj [("offset", .int next)])

/-! ## JSON-safety and shallow serialization (executor.py 157-201) -/

mutual

/-- Executor.to_json_value (executor.py 157-187): lists and dicts recurse;
null, booleans, strings, ints and floats pass; other values stringify (the
`url` accessor special case cannot arise on JSON-shaped values; `bytes`
stringify approximately). -/
def to_json_value : JVal → JVal
  | .list xs => .list (toJsonList xs)
  | .obj kvs => .obj (toJsonPairs kvs)
  | .null => .null
  | .bool b => .bool b
  | .int i => .int i
  | .str s => .str s
  | .pyfloat lit => .pyfloat lit
  | .pybytes cs => .str (String.mk cs)

/-- The list comprehension of to_json_value. -/
def toJsonList : List JVal → List JVal
  | [] => []
  | v :: vs => to_json_value v :: toJsonList vs

/-- The dict comprehension of to_json_value (keys here are strings, which
to_json_value maps to themselves). -/
def toJsonPairs : List (String × JVal) → List (String × JVal)
  | [] => []
  | (k, v) :: kvs => (k, to_json_value v) :: toJsonPairs kvs

end

/-- The `getattr(value, "pk", value)` of serialize_value: JSON-shaped records
carry no `pk` attribute, so the getattr default applies. -/
def pkOf (v : JVal) : JVal := v

/-- Executor.serialize_value (executor.py 189-201): represent records by
primary key (the identity on this value universe) and make the result
JSON-safe. -/
def serialize_value (v : JVal) : JVal :=
  match v with
  | .list xs => to_json_value (.list (xs.map pkOf))
  | v => to_json_value (pkOf v)

/-- Executor.select_fields (executor.py 74-104): read the level's take from
the query state and filter the resource's fields.  (A truthy non-dict take
raises in should_take_field's `take.get` on the first field; it is rejected
here once, which no claim distinguishes.) -/
def select_fields (fuel : Nat) (resource : ResourceT) (action : String)
    (level : Option String) (queryState request : JVal) :
    Except ExecError (List FieldD) := do
  let state := getState queryState level
  let takeV ← pyGet state "take" .null
  match takeV with
  | .null => select_fields_from fuel resource.flds none action queryState request
  | .obj tkvs => select_fields_from fuel resource.flds (some tkvs) action queryState request
  | _ => .error (.attrError "take.get")

/-! ## Deep serialization (executor.py 203-317) -/

mutual

/-- Executor.serialize (executor.py 203-317): read the level's page size and
take from the query state, mirror the list/scalar shape of the record, and
serialize each record field by field. -/
def serialize : Nat → ResourceT → List FieldD → JVal → JVal → Option String → JVal →
    Except ExecError JVal
  | 0, _, _, _, _, _, _ => .error .fuel
  | fuel + 1, resource, fields, record, queryState, level, request => do
      let state := getState queryState level
      let page ← pyGet state "page" (.obj [])
      let pageSize ← pyGet page "size" (.int DEFAULT_PAGE_SIZE)
      let takeV ← pyGet state "take" .null
      match record with
      | .list xs => do
          let rs ← xs.mapM (fun r =>
            serialize_record fuel resource fields r queryState takeV level request pageSize)
          .ok (.list (rs.map (fun kvs => JVal.obj kvs)))
      | r => do
          let res ← serialize_record fuel resource fields r queryState takeV level request pageSize
          .ok (.obj res)

/-- The per-record loop of Executor.serialize: build the result dict in
field order. -/
def serialize_record : Nat → ResourceT → List FieldD → JVal → JVal → JVal → Option String →
    JVal → JVal → Except ExecError (List (String × JVal))
  | 0, _, _, _, _, _, _, _, _ => .error .fuel
  | fuel + 1, resource, fields, record, queryState, takeV, level, request, pageSize =>
      fields.foldlM
        (fun acc f => do
          let v ← serialize_field fuel resource f record queryState takeV level request pageSize
          pure (jset acc f.name v))
        []

/-- The per-field body of Executor.serialize (executor.py 241-311).  The
effective source is the string source (or the field name for computed
sources); with a falsy record the source must be dot-prefixed and is read
from the `\x7bfields, request, query\x7d` context, else `SerializationError`.
A dict take entry requests relation expansion: `get_link` yields its pair,
the `if not link` guard never fires (a 2-tuple is truthy), and the PAIR
itself is passed to resolve_resource as the resource name, where it can
match no string key.  Other take entries and an absent take serialize
shallow. -/
def serialize_field : Nat → ResourceT → FieldD → JVal → JVal → JVal → Option String →
    JVal → JVal → Except ExecError JVal
  | 0, _, _, _, _, _, _, _, _ => .error .fuel
  | fuel + 1, resource, f, record, queryState, takeV, level, request, pageSize => do
      let source := match f.source with | .str s => s | _ => f.name
      let context := JVal.obj [("fields", record), ("request", request), ("query", queryState)]
      let value ← (if truthy record then Except.ok (jgetPath source record)
                   else if startsWithDot source then Except.ok (jgetPath (dropFirst source) context)
                   else Except.error (ExecError.serialization
                     ("Source " ++ source ++ " must start with . because no record")))
      match takeV with
      | .null => .ok (serialize_value value)
      | .obj tkvs =>
          let takeField := (jlookup f.name tkvs).getD .null
          match takeField with
          | .obj _ => do
              let link ← get_link f.type
              if pairTruthy link = false then
                .error (.serialization ("Cannot serialize relation for field " ++
                  resource.rid ++ "." ++ f.name ++ ": type has no link"))
              else do
                let related ← resolve_resource resource (.pairK link)
                let relatedLevel := match level with
                                    | none => f.name
                                    | some lv => lv ++ "." ++ f.name
                let value2 ← (match value with
                              | .list xs =>
                                  match pageSize with
                                  | .int ps =>
                                      Except.ok (if (xs.length : Int) > ps then
                                        JVal.list (xs.take ps.toNat) else JVal.list xs)
                                  | _ => Except.error (ExecError.typeError
                                          "comparison not supported between instances")
                              | v => Except.ok v)
                let relatedFields ← select_fields fuel related "get" (some relatedLevel)
                  queryState request
                serialize fuel related relatedFields value2 queryState (some relatedLevel) request
          | _ => .ok (serialize_value value)
      | _ => .error (.attrError "take.get")

end

/-! ## Query state compiler: where clauses (query.py 23-58, 217-343) -/

/-- Modelled approximation of `float(str)` acceptance; no claim exercises
float coercion, the check only routes strings that look numeric with a dot
or exponent into the float constructor. -/
def pyFloatParses (s : String) : Bool :=
  let t := ((s.data.dropWhile Char.isWhitespace).reverse.dropWhile Char.isWhitespace).reverse
  !t.isEmpty && t.any Char.isDigit &&
    t.all (fun c => c.isDigit || c = '.' || c = '-' || c = '+' || c = 'e' || c = 'E') &&
    t.any (fun c => c = '.' || c = 'e' || c = 'E')

/-- coerce_query_value (query.py 23-52): optionally coerce the singleton
words true/false/null, else try int, else float, else keep the string. -/
def coerce_query_value (s : String) (singletons : Bool) : JVal :=
  if singletons ∧ s.toLower = "true" then .bool true
  else if singletons ∧ s.toLower = "false" then .bool false
  else if singletons ∧ s.toLower = "null" then .null
  else
    match pyIntParse s with
    | some i => .int i
    | none => if pyFloatParses s then .pyfloat s else .str s

/-- coerce_query_values (query.py 55-58): unwrap a singleton list. -/
def coerce_query_values (vs : List String) (singletons : Bool) : JVal :=
  match vs with
  | [v] => coerce_query_value v singletons
  | _ => .list (vs.map (fun v => coerce_query_value v singletons))

/-- One `where` querystring entry after feature splitting: the `:`-separated
segments between the feature and the `=`, plus the parse_qs value list.
The source stores them as one list `segments ++ [values]`, whose length is
the `num_parts` the compiler switches on (`segs.length + 1` here). -/
structure WhereItem where
  segs : List String
  values : List String

/-- Modelled from the spec: `SIMPLE_EXPRESSIONS` (boolean.py is not under
src/).  The compiler initialises the expression to `and` and treats
membership here as "no explicit boolean expression was given, combine with
implicit AND". -/
def SIMPLE_EXPRESSIONS : List String := ["and"]

/-- Modelled from the spec: `BOOLEAN_OPERATORS` (boolean.py is not under
src/) — the reserved boolean-operator names a where-tag may not reuse. -/
def BOOLEAN_OPERATORS : List String := ["and", "or", "not"]

/-- Modelled from the spec: `build_expression` (boolean.py is not under
src/) substitutes tagged conditions into an explicit boolean-operator
expression.  No claim reaches this call (their expressions stay `and`). -/
def build_expression (_e : String) (_operands : List (String × JVal)) :
    Except ExecError JVal :=
  .error (.notModelled "build_expression")

/-- The per-item loop of Query._update_where (query.py 270-322): walk the
items with their enumeration index, collecting the expression word (from
1-segment items) and the tag-to-condition operand map. -/
def whereLoop : List WhereItem → Nat → String → List (String × JVal) →
    Except ExecError (String × List (String × JVal))
  | [], _, expr, ops => .ok (expr, ops)
  | w :: ws, i, expr, ops =>
      match w.segs with
      | [] =>
          match w.values with
          | [] => .error (.indexError "list index out of range")
          | [v] => whereLoop ws (i + 1) v ops
          | _ => .error (.queryValidation "multiple values provided")
      | [f] =>
          let operand := JVal.obj [("=", .list [.str f, coerce_query_values w.values false])]
          let key := toString i
          if (ops.find? (fun kv => kv.1 = key)).isSome then
            .error (.queryValidation "duplicate tags")
          else whereLoop ws (i + 1) expr (ops ++ [(key, operand)])
      | [f, op] =>
          let operand := JVal.obj [(op, .list [.str f, coerce_query_values w.values false])]
          let key := toString i
          if (ops.find? (fun kv => kv.1 = key)).isSome then
            .error (.queryValidation "duplicate tags")
          else whereLoop ws (i + 1) expr (ops ++ [(key, operand)])
      | [f, op, tag] =>
          let operand := JVal.obj [(op, .list [.str f, coerce_query_values w.values false])]
          if tag ∈ BOOLEAN_OPERATORS then
            .error (.queryValidation "tag uses a boolean operator")
          else if tag = "" then
            whereLoop ws (i + 1) expr ops
          else if (ops.find? (fun kv => kv.1 = tag)).isSome then
            .error (.queryValidation "duplicate tags")
          else whereLoop ws (i + 1) expr (ops ++ [(tag, operand)])
      | _ => .error (.queryValidation "too many segments")

/-- The combination step of Query._update_where (query.py 324-335): an
explicit expression is built from the operands; implicitly, ONE condition
becomes the raw `values` LIST (`update = values` in the source — note this
is the `[condition]` singleton list, not the condition), several become
`\x7band: values\x7d`. -/
def whereUpdateValue (ws : List WhereItem) : Except ExecError JVal := do
  let p ← whereLoop ws 0 "and" []
  let values := p.2.map (fun kv => kv.2)
  if p.1 ∉ SIMPLE_EXPRESSIONS then build_expression p.1 p.2
  else
    match values with
    | [v] => .ok (.list [v])
    | _ => .ok (.obj [(p.1, .list values)])

/-- The level descent and assignment of Query._update (query.py 217-260)
for a single `key = value` update with `merge=False, copy=False`: descend
the take tree along the level parts, materialising empty dicts for missing
or boolean nodes, then assign at the final sub-state. -/
def updateStateGo : JVal → List String → String → JVal → Except ExecError JVal
  | st, [], key, value =>
      match st with
      | .obj kvs => .ok (.obj (jset kvs key value))
      | _ => .error (.typeError "object does not support item assignment")
  | st, p :: ps, key, value =>
      match st with
      | .obj kvs =>
          match (jlookup "take" kvs).getD (.obj []) with
          | .obj tkvs => do
              let subNew := match jlookup p tkvs with
                            | none => JVal.obj []
                            | some (.bool _) => JVal.obj []
                            | some v => v
              let sub2 ← updateStateGo subNew ps key value
              .ok (.obj (jset kvs "take" (.obj (jset tkvs p sub2))))
          | _ => .error (.typeError "take node is not a dict")
      | _ => .error (.typeError "object is not subscriptable")

/-- The level path of a where group: `None` is the root, otherwise the
dot-separated parts. -/
def levelParts : Option String → List String
  | none => []
  | some lv => pySplit lv '.'

/-- Query._update_where (query.py 265-343): for each level, combine that
level's conditions and assign the result under `where` at that level of the
query state. -/
def update_where (state : JVal) (leveled : List (Option String × List WhereItem)) :
    Except ExecError JVal :=
  leveled.foldlM
    (fun st lw => do
      let update ← whereUpdateValue lw.2
      updateStateGo st (levelParts lw.1) "where" update)
    state

/-! ## The claims -/

/-- The C1 fixture: a non-lazy field whose `can["get"]` is the expression
`\x7b"value": false\x7d`, which resolves to `False`. -/
def fieldC1 : FieldD :=
  FieldD.mk "f" (.str "string") (.str "f")
    (some [("get", .obj [("value", .bool false)])]) false

/-- C1: the claim says the resolved boolean value of a dict `can[action]`
rule alone decides inclusion (resolves-false means excluded).  The source
instead returns the `(value, was_resolved)` pair of `execute` without
unpacking it; a 2-tuple is truthy, so the field is INCLUDED although its
rule resolved to `False`: `can_take_field` yields the pair
`(False, True)`, that pair is truthy, and `select_fields` keeps the
field. -/
theorem claim_C1_can_take_field_returns_unpacked_pair :
    can_take_field 5 fieldC1 "get" (.obj []) (.obj []) = .ok (.pair (.bool false) true)
    ∧ canResultTruthy (.pair (.bool false) true) = true
    ∧ select_fields_from 5 [fieldC1] none "get" (.obj []) (.obj []) = .ok [fieldC1] :=
  ⟨rfl, rfl, rfl⟩

/-- C2: the claim says a lone 2-segment condition `where:name=Joe` compiles
to the unwrapped mapping and is never wrapped in a list.  The source's
single-condition branch is `update = values` — the singleton LIST of
conditions — so the compiled `where` is `[\x7b"=": [name, value]\x7d]`,
a list around the condition, for both the 2- and the 3-segment form. -/
theorem claim_C2_single_where_condition_list_wrapped :
    update_where (.obj []) [(none, [WhereItem.mk ["name"] ["Joe"]])]
      = .ok (.obj [("where", .list [.obj [("=", .list [.str "name", .str "Joe"])]])])
    ∧ update_where (.obj []) [(none, [WhereItem.mk ["name", "contains"] ["Jo"]])]
      = .ok (.obj [("where", .list [.obj [("contains", .list [.str "name", .str "Jo"])]])]) :=
  ⟨rfl, rfl⟩

/-- C3: should_take_field semantics — absent take includes exactly non-lazy
fields; an explicit false excludes; an explicit true or mapping includes
(lazy or not); a field without an entry is included iff the `*` default is
truthy and the field is not lazy. -/
theorem claim_C3_should_take_field_semantics (f : FieldD) (t : List (String × JVal)) :
    (should_take_field f none = !f.lazy)
    ∧ (jlookup f.name t = some (.bool false) → should_take_field f (some t) = false)
    ∧ (jlookup f.name t = some (.bool true) → should_take_field f (some t) = true)
    ∧ (∀ kvs, jlookup f.name t = some (.obj kvs) → should_take_field f (some t) = true)
    ∧ (jlookup f.name t = none →
        should_take_field f (some t)
          = (truthy ((jlookup "*" t).getD (.bool false)) && !f.lazy)) := by
  refine ⟨rfl, ?_, ?_, ?_, ?_⟩
  · intro h
    simp [should_take_field, h]
  · intro h
    simp [should_take_field, h]
  · intro kvs h
    simp [should_take_field, h]
  · intro h
    simp only [should_take_field, h, Option.getD_none]
    cases hl : f.lazy <;>
      cases hv : truthy ((jlookup "*" t).getD (.bool false)) <;> simp [hl, hv]

/-- Witness for C3 at concrete fields and take mappings: a lazy field with
no take is dropped; an explicit false beats a truthy wildcard; explicit
true and mapping entries include a lazy field; a truthy wildcard includes a
non-lazy field but never a lazy one. -/
theorem claim_C3_witness :
    should_take_field (FieldD.mk "a" .null .null none true) none = false
    ∧ should_take_field (FieldD.mk "a" .null .null none false)
        (some [("a", .bool false), ("*", .bool true)]) = false
    ∧ should_take_field (FieldD.mk "a" .null .null none true) (some [("a", .bool true)]) = true
    ∧ should_take_field (FieldD.mk "a" .null .null none true) (some [("a", .obj [])]) = true
    ∧ should_take_field (FieldD.mk "a" .null .null none true) (some [("*", .bool true)]) = false
    ∧ should_take_field (FieldD.mk "b" .null .null none false) (some [("*", .bool true)]) = true :=
  ⟨(claim_C3_should_take_field_semantics (FieldD.mk "a" .null .null none true) []).1,
   (claim_C3_should_take_field_semantics (FieldD.mk "a" .null .null none false)
      [("a", .bool false), ("*", .bool true)]).2.1 rfl,
   (claim_C3_should_take_field_semantics (FieldD.mk "a" .null .null none true)
      [("a", .bool true)]).2.2.1 rfl,
   (claim_C3_should_take_field_semantics (FieldD.mk "a" .null .null none true)
      [("a", .obj [])]).2.2.2.1 [] rfl,
   (claim_C3_should_take_field_semantics (FieldD.mk "a" .null .null none true)
      [("*", .bool true)]).2.2.2.2 rfl,
   (claim_C3_should_take_field_semantics (FieldD.mk "b" .null .null none false)
      [("*", .bool true)]).2.2.2.2 rfl⟩

/-- C4: cursor round-trip — for every non-negative integer `n`, decoding the
encoding of `\x7b"offset": n\x7d` gives `\x7b"offset": n\x7d` back. -/
theorem claim_C4_cursor_roundtrip (n : Nat) :
    (encode_cursor (.obj [("offset", .int (n : Int))]) >>= fun c => decode_cursor c)
      = .ok (.obj [("offset", .int (n : Int))]) := by
  have h0 : (0 : Int) ≤ (n : Int) := Int.ofNat_nonneg n
  simp only [encode_cursor, if_pos h0, Int.toNat_ofNat]
  exact decode_cursorBytes n

/-- C7: the claim says any single-key mapping whose key, after stripping one
leading dot, is no method is returned unchanged and unresolved.  That holds
for undotted keys and for multi-key mappings, but a DOTTED unknown key
raises `KeyError`: the source strips the dot and then indexes the mapping
with the stripped key (`args = expression[method]`), which is absent. -/
theorem claim_C7_dotted_key_raises :
    execute 5 (.obj [(".x", .int 1)]) (.obj []) = .error (.keyError "x")
    ∧ execute 5 (.obj [("x", .int 1)]) (.obj []) = .ok (.obj [("x", .int 1)], false)
    ∧ execute 5 (.obj [("x", .int 1), ("y", .int 2)]) (.obj [])
        = .ok (.obj [("x", .int 1), ("y", .int 2)], false) :=
  ⟨rfl, rfl, rfl⟩

theorem bind_ok_eq {α β : Type} (a : α) (f : α → Except ExecError β) :
    (Except.ok a >>= f) = f a := rfl

theorem bind_error_eq {α β : Type} (e : ExecError) (f : α → Except ExecError β) :
    ((Except.error e : Except ExecError α) >>= f) = .error e := rfl

theorem strList_strs (rs : List String) :
    strList (rs.map JVal.str) = .ok rs := by
  induction rs with
  | nil => rfl
  | cons r rs ih => simp [strList, ih, Except.map]

theorem pyStrJoin_strs (sep : String) (rs : List String) :
    pyStrJoin (.str sep) (rs.map JVal.str) = .ok (.str (String.intercalate sep rs)) := by
  simp [pyStrJoin, strList_strs, Except.map]

/-- The C6 fixture context: `a` and `b` resolve to `x` and `y`. -/
def joinCtx : JVal := .obj [("a", .str "x"), ("b", .str "y")]

/-- C6 counterexample: the claim says the bare-list shape of `join` resolves
each element like the dict shape does.  In this context where `a` and `b`
resolve to `x` and `y`, the dict shape joins the RESOLVED values (`x y`)
but the bare list joins its elements as-is (`a b`): the shapes do not
behave identically. -/
theorem claim_C6_counterexample :
    join_expression (.obj [("values", .list [.str "a", .str "b"])]) joinCtx = .ok (.str "x y")
    ∧ join_expression (.list [.str "a", .str "b"]) joinCtx = .ok (.str "a b")
    ∧ (JVal.str "a b") ≠ (JVal.str "x y") := by
  refine ⟨rfl, rfl, ?_⟩
  intro h
  injection h with h2
  exact absurd h2 (by decide)

/-- C6 amended: the dict shape resolves each element of `values` as an
expression and joins with the separator (default one space); the BARE LIST
shape joins its elements AS-IS, without resolving them; the bare string is
resolved as an expression, fails with a value error unless the result is a
list, and that list is joined raw with one space. -/
theorem claim_C6_join_shapes :
    (∀ (ss : List String) (ctx : JVal), ss ≠ [] →
        join_expression (.list (ss.map JVal.str)) ctx
          = .ok (.str (String.intercalate " " ss)))
    ∧ (∀ (es : List JVal) (ctx : JVal) (rs : List String) (sep : String),
        es.mapM (fun v => get_expression v ctx) = .ok (rs.map JVal.str) →
        join_expression (.obj [("values", .list es), ("separator", .str sep)]) ctx
          = .ok (.str (String.intercalate sep rs)))
    ∧ (∀ (es : List JVal) (ctx : JVal) (rs : List String),
        es.mapM (fun v => get_expression v ctx) = .ok (rs.map JVal.str) →
        join_expression (.obj [("values", .list es)]) ctx
          = .ok (.str (String.intercalate " " rs)))
    ∧ (∀ (s : String) (ctx : JVal) (ss : List String), s ≠ "" →
        get_expression (.str s) ctx = .ok (.list (ss.map JVal.str)) →
        join_expression (.str s) ctx = .ok (.str (String.intercalate " " ss)))
    ∧ (∀ (s : String) (ctx : JVal) (v : JVal), s ≠ "" →
        get_expression (.str s) ctx = .ok v → (∀ xs, v ≠ .list xs) →
        join_expression (.str s) ctx
          = .error (.valueError "join expecting value to be list")) := by
  refine ⟨?_, ?_, ?_, ?_, ?_⟩
  · intro ss ctx hne
    cases ss with
    | nil => exact absurd rfl hne
    | cons a as => simpa using pyStrJoin_strs " " (a :: as)
  · intro es ctx rs sep hmap
    rw [show join_expression (.obj [("values", .list es), ("separator", .str sep)]) ctx
          = ((es.mapM (fun v => get_expression v ctx)) >>=
              fun rs2 => pyStrJoin (.str sep) rs2) from rfl,
      hmap, bind_ok_eq]
    exact pyStrJoin_strs sep rs
  · intro es ctx rs hmap
    rw [show join_expression (.obj [("values", .list es)]) ctx
          = ((es.mapM (fun v => get_expression v ctx)) >>=
              fun rs2 => pyStrJoin (.str " ") rs2) from rfl,
      hmap, bind_ok_eq]
    exact pyStrJoin_strs " " rs
  · intro s ctx ss hne hget
    have ht : truthy (.str s) = false ↔ False := by simp [truthy, hne]
    simp only [join_expression, ht, if_false, hget, bind_ok_eq]
    exact pyStrJoin_strs " " ss
  · intro s ctx v hne hget hnl
    have ht : truthy (.str s) = false ↔ False := by simp [truthy, hne]
    cases v with
    | list xs => exact absurd rfl (hnl xs)
    | null => simp only [join_expression, ht, if_false, hget, bind_ok_eq]
    | bool b => simp only [join_expression, ht, if_false, hget, bind_ok_eq]
    | int i => simp only [join_expression, ht, if_false, hget, bind_ok_eq]
    | pyfloat l => simp only [join_expression, ht, if_false, hget, bind_ok_eq]
    | str t => simp only [join_expression, ht, if_false, hget, bind_ok_eq]
    | obj kvs => simp only [join_expression, ht, if_false, hget, bind_ok_eq]
    | pybytes cs => simp only [join_expression, ht, if_false, hget, bind_ok_eq]

/-- Witness for C6 amended at concrete inputs: a raw list join, a dict join
with separator, a string join over a resolvable list, and the value error
on a string resolving to a non-list. -/
theorem claim_C6_witness :
    join_expression (.list [.str "a", .str "b"]) joinCtx = .ok (.str "a b")
    ∧ join_expression (.obj [("values", .list [.str "a", .str "b"]), ("separator", .str "-")])
        joinCtx = .ok (.str "x-y")
    ∧ join_expression (.str "a") (.obj [("a", .list [.str "p", .str "q"])]) = .ok (.str "p q")
    ∧ join_expression (.str "a") (.obj [("a", .int 3)])
        = .error (.valueError "join expecting value to be list") :=
  ⟨claim_C6_join_shapes.1 ["a", "b"] joinCtx (by decide),
   claim_C6_join_shapes.2.1 [.str "a", .str "b"] joinCtx ["x", "y"] "-" rfl,
   claim_C6_join_shapes.2.2.2.1 "a" (.obj [("a", .list [.str "p", .str "q"])]) ["p", "q"]
     (by decide) rfl,
   claim_C6_join_shapes.2.2.2.2 "a" (.obj [("a", .int 3)]) (.int 3) (by decide) rfl
     (fun xs h => JVal.noConfusion h)⟩

/-- The C9 fixture: expression `\x7bget: a\x7d` in a context where `a` maps
to that same expression. -/
def cycExpr : JVal := .obj [("get", .str "a")]

/-- The C9 fixture context. -/
def cycCtx : JVal := .obj [("a", .obj [("get", .str "a")])]

set_option maxRecDepth 8000 in
/-- C9 counterexample: on the cyclic fixture, one `execute` step returns the
very same mapping with `was_resolved = True`, so the while-loop of
resolve_expression repeats forever; with an explicit budget of 60 steps the
loop exhausts it without finishing. -/
theorem claim_C9_counterexample :
    execute 1 cycExpr cycCtx = .ok (cycExpr, true)
    ∧ resolve_expression 60 cycExpr cycCtx = .error .fuel :=
  ⟨rfl, rfl⟩

/-- C9 amended: resolve_expression stops at once on a non-mapping and stops
as soon as execute reports `was_resolved = False`; but it does NOT terminate
for every expression and context — on the cyclic fixture the loop exhausts
EVERY fuel bound. -/
theorem claim_C9_resolve_loop :
    (∀ (n : Nat) (e ctx : JVal), (∀ kvs, e ≠ .obj kvs) →
        resolve_expression (n + 1) e ctx = .ok e)
    ∧ (∀ (n : Nat) (kvs : List (String × JVal)) (ctx e2 : JVal),
        execute n (.obj kvs) ctx = .ok (e2, false) →
        resolve_expression (n + 1) (.obj kvs) ctx = .ok e2)
    ∧ (∀ n : Nat, resolve_expression n cycExpr cycCtx = .error .fuel) := by
  refine ⟨?_, ?_, ?_⟩
  · intro n e ctx he
    cases e with
    | obj kvs => exact absurd rfl (he kvs)
    | null => rfl
    | bool b => rfl
    | int i => rfl
    | pyfloat l => rfl
    | str s => rfl
    | list xs => rfl
    | pybytes cs => rfl
  · intro n kvs ctx e2 hex
    simp [resolve_expression, hex, bind_ok_eq]
  · intro n
    induction n with
    | zero => rfl
    | succ m ih =>
        cases m with
        | zero => rfl
        | succ k =>
            have hex : execute (k + 1) (JVal.obj [("get", JVal.str "a")]) cycCtx
                = .ok (JVal.obj [("get", JVal.str "a")], true) := rfl
            have step : resolve_expression (k + 1 + 1) cycExpr cycCtx
                = resolve_expression (k + 1) (JVal.obj [("get", JVal.str "a")]) cycCtx := by
              rw [show cycExpr = JVal.obj [("get", JVal.str "a")] from rfl]
              simp [resolve_expression, hex, bind_ok_eq]
            rw [step]
            exact ih

/-- Witness for C9 amended: a non-mapping stops at once; a two-key mapping
stops unresolved after one execute step; the cyclic fixture exhausts a
concrete budget. -/
theorem claim_C9_witness :
    resolve_expression 4 (.int 7) (.obj []) = .ok (.int 7)
    ∧ resolve_expression 3 (.obj [("x", .int 1), ("y", .int 2)]) (.obj [])
        = .ok (.obj [("x", .int 1), ("y", .int 2)])
    ∧ resolve_expression 6 cycExpr cycCtx = .error .fuel :=
  ⟨claim_C9_resolve_loop.1 3 (.int 7) (.obj []) (fun kvs h => JVal.noConfusion h),
   claim_C9_resolve_loop.2.1 2 [("x", .int 1), ("y", .int 2)] (.obj [])
     (.obj [("x", .int 1), ("y", .int 2)]) rfl,
   claim_C9_resolve_loop.2.2 6⟩

/-- C8: with a page of size `s` at the queried level, get_next_page with no
prior `after` cursor encodes offset `s`; with a prior cursor at offset `n`
it encodes `n + s` — so installing each result as the next prior cursor
advances the offset by exactly `s` per application (s, then 2s, ...). -/
theorem claim_C8_next_page_offsets (s n : Nat) (st st2 : JVal) (lvl : Option String)
    (pg pg2 : List (String × JVal))
    (h1 : pyGet (getState st lvl) "page" (.obj []) = .ok (.obj pg))
    (h2 : (jlookup "size" pg).getD (.int DEFAULT_PAGE_SIZE) = .int (s : Int))
    (h3 : (jlookup "after" pg).getD .null = .null)
    (h4 : pyGet (getState st2 lvl) "page" (.obj []) = .ok (.obj pg2))
    (h5 : (jlookup "size" pg2).getD (.int DEFAULT_PAGE_SIZE) = .int (s : Int))
    (h6 : (jlookup "after" pg2).getD .null = cursorBytes n) :
    get_next_page st none lvl = .ok (cursorBytes s)
    ∧ get_next_page st2 none lvl = .ok (cursorBytes (n + s)) := by
  have last : ∀ m : Nat, encode_cursor (.obj [("offset", .int (m : Int))])
      = .ok (cursorBytes m) := by
    intro m
    have h0 : (0 : Int) ≤ (m : Int) := Int.ofNat_nonneg m
    simp [encode_cursor, h0, cursorBytes, Int.toNat_ofNat]
  constructor
  · unfold get_next_page
    simp only []
    rw [h1, bind_ok_eq]
    simp only []
    rw [h2,
      show pyInt (JVal.int (s : Int)) = Except.ok (s : Int) from rfl,
      bind_ok_eq]
    rw [show pyGet (JVal.obj pg) "after" JVal.null
          = Except.ok ((jlookup "after" pg).getD JVal.null) from rfl,
      h3, bind_ok_eq]
    exact last s
  · unfold get_next_page
    simp only []
    rw [h4, bind_ok_eq]
    simp only []
    rw [h5,
      show pyInt (JVal.int (s : Int)) = Except.ok (s : Int) from rfl,
      bind_ok_eq]
    rw [show pyGet (JVal.obj pg2) "after" JVal.null
          = Except.ok ((jlookup "after" pg2).getD JVal.null) from rfl,
      h6, bind_ok_eq]
    simp only [cursorBytes]
    rw [show decode_cursor (JVal.pybytes (b64encode (dumpBytes n)))
          = .ok (.obj [("offset", .int (n : Int))]) from decode_cursorBytes n]
    have last2 : encode_cursor (.obj [("offset", .int ((n : Int) + (s : Int)))])
        = .ok (.pybytes (b64encode (dumpBytes (n + s)))) := by
      rw [show ((n : Int) + (s : Int)) = ((n + s : Nat) : Int) from by push_cast; ring]
      simpa [cursorBytes] using last (n + s)
    exact last2

/-- Witness for C8: page size 5 with no prior cursor yields the offset-5
cursor; installing it as the prior cursor yields the offset-10 cursor. -/
theorem claim_C8_witness :
    get_next_page (.obj [("page", .obj [("size", .int 5)])]) none none = .ok (cursorBytes 5)
    ∧ get_next_page (.obj [("page", .obj [("size", .int 5), ("after", cursorBytes 5)])])
        none none = .ok (cursorBytes 10) :=
  claim_C8_next_page_offsets 5 5
    (.obj [("page", .obj [("size", .int 5)])])
    (.obj [("page", .obj [("size", .int 5), ("after", cursorBytes 5)])])
    none [("size", .int 5)] [("size", .int 5), ("after", cursorBytes 5)]
    rfl rfl rfl rfl rfl rfl

/-- C5: whenever serialize processes a field whose take entry is a mapping
and whose declared type does not resolve to a link, the per-field step
fails with a SerializationError (never producing a value).  With no link,
get_link returns the truthy pair `(None, None)`, so the explicit "type has
no link" raise is skipped, and resolve_resource then fails: either the base
resource has no space, or the registry lookup with the pair key misses —
both SerializationErrors. -/
theorem claim_C5_nested_take_without_link_fails
    (fuel : Nat) (res : ResourceT) (f : FieldD) (record queryState request pageSize : JVal)
    (level : Option String) (tkvs sub : List (String × JVal))
    (htake : jlookup f.name tkvs = some (.obj sub))
    (hlink : is_link f.type ≠ .t) :
    ∃ msg, serialize_field (fuel + 1) res f record queryState (.obj tkvs) level request pageSize
      = .error (.serialization msg) := by
  have hgl : get_link f.type = .ok (none, none) := by
    unfold get_link
    rw [if_neg hlink]
  by_cases hr : truthy record = true
  · cases hspc : res.spc with
    | none =>
        refine ⟨"Cannot lookup resource from base resource " ++ res.rid, ?_⟩
        simp [serialize_field, hr, htake, hgl, bind_ok_eq, bind_error_eq,
          resolve_resource, hspc, pairTruthy]
    | some byName =>
        refine ⟨"Resource not found", ?_⟩
        simp [serialize_field, hr, htake, hgl, bind_ok_eq, bind_error_eq,
          resolve_resource, hspc, pairTruthy, pyDictGetR]
  · by_cases hd : startsWithDot (match f.source with | .str s => s | _ => f.name) = true
    · cases hspc : res.spc with
      | none =>
          refine ⟨"Cannot lookup resource from base resource " ++ res.rid, ?_⟩
          simp [serialize_field, hr, hd, htake, hgl, bind_ok_eq, bind_error_eq,
            resolve_resource, hspc, pairTruthy]
      | some byName =>
          refine ⟨"Resource not found", ?_⟩
          simp [serialize_field, hr, hd, htake, hgl, bind_ok_eq, bind_error_eq,
            resolve_resource, hspc, pairTruthy, pyDictGetR]
    · refine ⟨"Source " ++ (match f.source with | .str s => s | _ => f.name)
        ++ " must start with . because no record", ?_⟩
      simp [serialize_field, hr, hd, bind_error_eq]

/-- Witness for C5: a field of plain type `string` (no `@`, so no link) with
a dict take entry, on a present record — the step yields a
SerializationError. -/
theorem claim_C5_witness :
    ∃ msg, serialize_field 3 (ResourceT.mk "r" [] none)
        (FieldD.mk "g" (.str "string") (.str "g") none false)
        (.obj [("g", .int 1)]) (.obj []) (.obj [("g", .obj [])]) none (.obj []) (.int 10)
      = .error (.serialization msg) :=
  claim_C5_nested_take_without_link_fails 2 (ResourceT.mk "r" [] none)
    (FieldD.mk "g" (.str "string") (.str "g") none false)
    (.obj [("g", .int 1)]) (.obj []) (.obj []) (.int 10) none
    [("g", .obj [])] [] rfl (by simp [is_link, containsChar])

/-- C10: serialize treats every falsy record — `None` and the empty mapping
alike — as the context-only case: a field whose effective string source
does not start with a dot makes the per-field step raise SerializationError
(regardless of the take entry), instead of producing a value. -/
theorem claim_C10_context_only_serialization
    (fuel : Nat) (res : ResourceT) (f : FieldD) (queryState takeV request pageSize : JVal)
    (level : Option String) (src : String)
    (hsrc : (match f.source with | .str s => s | _ => f.name) = src)
    (hdot : startsWithDot src = false) :
    serialize_field (fuel + 1) res f .null queryState takeV level request pageSize
      = .error (.serialization ("Source " ++ src ++ " must start with . because no record"))
    ∧ serialize_field (fuel + 1) res f (.obj []) queryState takeV level request pageSize
      = .error (.serialization ("Source " ++ src ++ " must start with . because no record")) := by
  constructor <;> simp [serialize_field, truthy, hsrc, hdot, bind_error_eq]

/-- Witness for C10: an ordinary renamed field (`source = "g"`) raises on
the null record and on the empty record mapping. -/
theorem claim_C10_witness :
    serialize_field 3 (ResourceT.mk "r" [] none)
        (FieldD.mk "g" (.str "string") (.str "g") none false)
        .null (.obj []) .null none (.obj []) (.int 10)
      = .error (.serialization "Source g must start with . because no record")
    ∧ serialize_field 3 (ResourceT.mk "r" [] none)
        (FieldD.mk "g" (.str "string") (.str "g") none false)
        (.obj []) (.obj []) .null none (.obj []) (.int 10)
      = .error (.serialization "Source g must start with . because no record") :=
  claim_C10_context_only_serialization 2 (ResourceT.mk "r" [] none)
    (FieldD.mk "g" (.str "string") (.str "g") none false)
    (.obj []) .null (.obj []) (.int 10) none "g" rfl rfl

end DR
